import Mathlib

/-!
Verification development for the document & focus navigation engine of the
`nhl` terminal UI. Rust source functions are embedded shallowly: `u16`/`i32`
values become `Nat`/`Int` (the embedded quantities are far below the overflow
bounds, and Rust's `saturating_sub` on `u16` is exactly `Nat` subtraction),
drawing into the terminal buffer becomes an explicit trace of draw operations,
and the handful of engine pieces whose source files are not in the repository
snapshot (document view, navigation stack state, component state store) are
modelled from the specification, each marked as such in its doc comment.
Color/style attributes are not modelled: no verified property observes them,
only which glyphs are placed where.
-/

namespace NHL

/-- `ratatui::layout::Rect` (u16 fields modelled as `Nat`). -/
structure Rect where
  x : Nat
  y : Nat
  width : Nat
  height : Nat
deriving DecidableEq, Repr, Inhabited

/-- The subset of `BoxChars` (src/src/formatting.rs) consumed by the embedded
render functions. -/
structure BoxChars where
  horizontal : String
  vertical : String
  double_horizontal : String
  mixed_dh_top_left : String
  mixed_dh_top_right : String
  mixed_dh_bottom_left : String
  mixed_dh_bottom_right : String
  mixed_dh_left_t : String
  mixed_dh_right_t : String
  selector : String
  breadcrumb_separator : String
deriving DecidableEq, Repr

/-- `BoxChars::unicode` (src/src/formatting.rs), restricted to the embedded fields. -/
def BoxChars.unicode : BoxChars where
  horizontal := "─"
  vertical := "│"
  double_horizontal := "═"
  mixed_dh_top_left := "╒"
  mixed_dh_top_right := "╕"
  mixed_dh_bottom_left := "╘"
  mixed_dh_bottom_right := "╛"
  mixed_dh_left_t := "╞"
  mixed_dh_right_t := "╡"
  selector := "▶"
  breadcrumb_separator := "▶"

/-- `BoxChars::ascii` (src/src/formatting.rs), restricted to the embedded fields. -/
def BoxChars.ascii : BoxChars where
  horizontal := "-"
  vertical := "|"
  double_horizontal := "="
  mixed_dh_top_left := "+"
  mixed_dh_top_right := "+"
  mixed_dh_bottom_left := "+"
  mixed_dh_bottom_right := "+"
  mixed_dh_left_t := "+"
  mixed_dh_right_t := "+"
  selector := ">"
  breadcrumb_separator := ">"

/-- `str::repeat` from Rust: `s` concatenated `n` times. -/
def repeatStr (s : String) (n : Nat) : String :=
  String.join (List.replicate n s)

/- ## Big digits (src/src/big_digits.rs, src/src/tui/widgets/big_score.rs) -/

/-- `BIG_DIGIT_WIDTH` (src/src/big_digits.rs). -/
def BIG_DIGIT_WIDTH : Nat := 4

/-- `BIG_DIGIT_HEIGHT` (src/src/big_digits.rs). -/
def BIG_DIGIT_HEIGHT : Nat := 4

/-- `DIGIT_GAP` (src/src/tui/widgets/big_score.rs). -/
def DIGIT_GAP : Nat := 1

/-- `NAME_BOX_WIDTH` (src/src/tui/widgets/big_score.rs). -/
def NAME_BOX_WIDTH : Nat := 20

/-- `NAME_DIGIT_GAP` (src/src/tui/widgets/big_score.rs). -/
def NAME_DIGIT_GAP : Nat := 2

/-- `SEPARATOR_WIDTH` (src/src/tui/widgets/big_score.rs). -/
def SEPARATOR_WIDTH : Nat := 6

/-- `BIG_DIGITS` (src/src/big_digits.rs): the big digit font, one 4-line
glyph block per digit 0-9. -/
def BIG_DIGITS : List (List String) :=
  [["▟▀▀▙", "█  █", "█  █", "▜▄▄▛"],
   ["▗█  ", " █  ", " █  ", "▗█▖ "],
   ["▟▀▀▙", "  ▗▛", " ▗▛ ", "▄█▄▄"],
   ["▟▀▀▙", " ▄▄▛", "   █", "▜▄▄▛"],
   [" ▗█ ", "▗▘█ ", "▙▄█▄", "  █ "],
   ["█▀▀▀", "█▄▄▖", "   █", "▜▄▄▛"],
   ["▗▛▀▘", "█▄▄▖", "█  █", "▜▄▄▛"],
   ["█▀▀█", "  ▟▘", " ▟▘ ", " █  "],
   ["▟▀▀▙", "▜▄▄▛", "█  █", "▜▄▄▛"],
   ["▟▀▀▙", "▜▄▄█", "  ▗▛", "▗▄▛ "]]

/-- `get_digit` (src/src/big_digits.rs): font lookup at `n % 10`. -/
def get_digit (n : Nat) : List String :=
  BIG_DIGITS.getD (n % 10) []

/-- `BigScore::score_digits` (src/src/tui/widgets/big_score.rs): digit indices
displayed for a score, clamped to the 0..=99 range. -/
def score_digits (score : Int) : List Nat :=
  if score < 0 then [0]
  else if score < 10 then [score.toNat]
  else if score < 100 then [(score / 10).toNat, (score % 10).toNat]
  else [9, 9]

/-- `BigScore` (src/src/tui/widgets/big_score.rs). The game-status field's type
(`ScoreBoxStatus`, whose source file is not in the snapshot) is a type
parameter; none of the embedded width computations reads it. -/
structure BigScore (Status : Type) where
  away_name : String
  home_name : String
  away_score : Int
  home_score : Int
  status : Status
  venue : String

/-- `BigScore::score_width` (src/src/tui/widgets/big_score.rs). -/
def score_width (score : Int) : Nat :=
  let digits := score_digits score
  let num_digits := digits.length
  num_digits * BIG_DIGIT_WIDTH + (num_digits - 1) * DIGIT_GAP

/-- `BigScore::balanced_name_boxes` (src/src/tui/widgets/big_score.rs). -/
def BigScore.balanced_name_boxes {St : Type} (s : BigScore St) : Nat × Nat :=
  let away_digits_width := score_width s.away_score
  let home_digits_width := score_width s.home_score
  if away_digits_width > home_digits_width then
    (NAME_BOX_WIDTH, NAME_BOX_WIDTH + (away_digits_width - home_digits_width))
  else if home_digits_width > away_digits_width then
    (NAME_BOX_WIDTH + (home_digits_width - away_digits_width), NAME_BOX_WIDTH)
  else
    (NAME_BOX_WIDTH, NAME_BOX_WIDTH)

/-- `BigScore::total_width` (src/src/tui/widgets/big_score.rs). -/
def BigScore.total_width {St : Type} (s : BigScore St) : Nat :=
  let boxes := s.balanced_name_boxes
  let away_digits := score_width s.away_score
  let home_digits := score_width s.home_score
  boxes.1 + NAME_DIGIT_GAP + away_digits + SEPARATOR_WIDTH + home_digits +
    NAME_DIGIT_GAP + boxes.2

/-- `BigScore::preferred_width` (src/src/tui/widgets/big_score.rs). -/
def BigScore.preferred_width {St : Type} (s : BigScore St) : Option Nat :=
  some s.total_width

/-- Swap the away and home scores of a `BigScore`, leaving names, status and
venue fixed (the transformation quantified over in the width-symmetry claim). -/
def BigScore.swap_scores {St : Type} (s : BigScore St) : BigScore St :=
  { s with away_score := s.home_score, home_score := s.away_score }

/- ## Stacked documents and breadcrumbs (src/src/tui/types.rs,
src/src/tui/components/breadcrumb.rs) -/

/-- `Tab` (src/src/tui/types.rs); the `development`-feature-only `Demo`
variant is compiled out in release builds and omitted. -/
inductive Tab where
  | Scores
  | Standings
  | Settings
deriving DecidableEq, Repr

/-- The tab display name used by `BreadcrumbWidget::build_breadcrumb_text`
(src/src/tui/components/breadcrumb.rs). -/
def Tab.name : Tab → String
  | .Scores => "Scores"
  | .Standings => "Standings"
  | .Settings => "Settings"

/-- `StackedDocument` (src/src/tui/types.rs). -/
inductive StackedDocument where
  | Boxscore (game_id : Int) (away_abbrev home_abbrev : String)
      (away_score home_score : Int) (game_date : String)
  | TeamDetail (team_abbrev : String)
  | PlayerDetail (player_id : Int) (sweater_number : Option Int) (last_name : String)
deriving DecidableEq, Repr

/-- `StackedDocument::label` (src/src/tui/types.rs). -/
def StackedDocument.label : StackedDocument → String
  | .Boxscore _ away_abbrev home_abbrev away_score home_score _ =>
      away_abbrev ++ ":" ++ toString away_score ++ "-" ++
        home_abbrev ++ ":" ++ toString home_score
  | .TeamDetail team_abbrev => team_abbrev
  | .PlayerDetail _ sweater_number last_name =>
      match sweater_number with
      | some num => "#" ++ toString num ++ " " ++ last_name
      | none => last_name

/-- Modelled from the spec: per-document navigation state
(`{focus_index: Option<usize>, scroll_offset: u16}`); the defining file
src/tui/state.rs is not in the snapshot. -/
structure NavState where
  focus_index : Option Nat
  scroll_offset : Nat
deriving DecidableEq, Repr

/-- Modelled from the spec: `DocumentStackEntry`
(`{document: StackedDocument, nav: NavState}`); src/tui/state.rs is not in
the snapshot. -/
structure DocumentStackEntry where
  document : StackedDocument
  nav : NavState
deriving DecidableEq, Repr

/-- The span texts produced by `BreadcrumbWidget::build_breadcrumb_text`
(src/src/tui/components/breadcrumb.rs): the current tab name, then for each
stacked entry a separator span `" {breadcrumb_separator} "` and the entry's
label span. -/
def breadcrumb_spans (bc : BoxChars) (current_tab : Tab)
    (document_stack : List DocumentStackEntry) : List String :=
  [current_tab.name] ++
    document_stack.flatMap fun doc_entry =>
      [" " ++ bc.breadcrumb_separator ++ " ", doc_entry.document.label]

/-- The breadcrumb line text: concatenation of the span texts of
`BreadcrumbWidget::build_breadcrumb_text`. -/
def breadcrumb_text (bc : BoxChars) (current_tab : Tab)
    (document_stack : List DocumentStackEntry) : String :=
  String.join (breadcrumb_spans bc current_tab document_stack)

/- ## Document stack navigation (modelled from the spec) -/

/-- Modelled from the spec: `push(document, initial focus)` appends a new
entry with `scroll_offset = 0` (src/tui/state.rs is not in the snapshot; the
stack is a `Vec` whose top is its last element, per
`state.navigation.document_stack.last()` in src/src/tui/components/app.rs). -/
def pushDocument (stack : List DocumentStackEntry) (doc : StackedDocument)
    (initial_focus : Option Nat) : List DocumentStackEntry :=
  stack ++ [⟨doc, ⟨initial_focus, 0⟩⟩]

/-- Modelled from the spec: `pop()` removes the top entry, discarding its nav
state, and exposes the entry beneath (src/tui/state.rs is not in the
snapshot). -/
def popDocument (stack : List DocumentStackEntry) : List DocumentStackEntry :=
  stack.dropLast

/-- Modelled from the spec: a focus/scroll mutation of the active (top) stack
entry — while `Viewing`, user interaction mutates only the top entry's nav
state (src/tui/state.rs and the key handlers are not in the snapshot). -/
def modifyTopNav (f : NavState → NavState) :
    List DocumentStackEntry → List DocumentStackEntry
  | [] => []
  | [e] => [⟨e.document, f e.nav⟩]
  | e :: rest => e :: modifyTopNav f rest

/-- A sequence of focus/scroll mutations of the top entry, applied in order. -/
def applyTopMutations (ms : List (NavState → NavState))
    (stack : List DocumentStackEntry) : List DocumentStackEntry :=
  ms.foldl (fun s f => modifyTopNav f s) stack

/- ## Component state store (modelled from the spec) -/

/-- Modelled from the spec: the component state store for one component kind —
a keyed map from a stable path string to that component's persisted state
(src/tui/component_store.rs is not in the snapshot; only its callers in
src/src/tui/components/app.rs are). Represented as an association list. -/
def ComponentStateStore (σ : Type) : Type := List (String × σ)

/-- Lookup of a path's persisted state in the store map. -/
def storeLookup {σ : Type} : List (String × σ) → String → Option σ
  | [], _ => none
  | (k, v) :: rest, path => if k = path then some v else storeLookup rest path

/-- Modelled from the spec: `get_or_init(path, props)` — the first call for a
given path constructs default/derived state from the props and persists it;
every subsequent call with the same path returns the persisted state.
Returns the state handed to the component together with the updated store. -/
def getOrInit {σ : Type} (store : List (String × σ)) (path : String)
    (initial : σ) : σ × List (String × σ) :=
  match storeLookup store path with
  | some v => (v, store)
  | none => (initial, store ++ [(path, initial)])

/-- Modelled from the spec: a mutation made through the mutable reference
returned by `get_or_init` — the persisted state stored at `path` is replaced
in place. -/
def setState {σ : Type} : List (String × σ) → String → σ → List (String × σ)
  | [], _, _ => []
  | (k, u) :: rest, path, v =>
    if k = path then (k, v) :: setState rest path v
    else (k, u) :: setState rest path v

/- ## Document elements and their renderer
(src/src/tui/document/elements/render.rs) -/

/-- A recorded draw operation. Each `buf.cell_mut(..).set_char` in the source
becomes a `setCell`, each `buf.set_string` a `setString`, each style-only cell
patch a `patchStyle`, and each delegation to the table widget / an opaque leaf
widget a `renderTable` / `renderWidget`. Style arguments are not recorded (no
verified property observes them). -/
inductive DrawOp where
  | setCell (x y : Nat) (c : Char)
  | setString (x y : Nat) (s : String)
  | patchStyle (x y : Nat)
  | renderTable (x y width height : Nat)
  | renderWidget (x y width height : Nat)
deriving DecidableEq, Repr

/-- The observable interface of `TableWidget` consumed by
`render_team_boxscore` (src/src/tui/document/elements/render.rs):
`row_count()` and `preferred_height()`. The widget's own source file is not in
the snapshot, so it is carried as data. -/
structure TableWidget where
  row_count : Nat
  pref_height : Option Nat
deriving DecidableEq, Repr

/-- `RowAlignment` (src/src/tui/document/elements). -/
inductive RowAlignment where
  | left
  | spread
deriving DecidableEq, Repr

/-- `DocumentElement` (src/src/tui/document/elements), with the payload each
variant's renderer consumes. `link`'s `focused` flag carries the focus
resolution normally performed against the `FocusContext`; `has_style` fields
record only the presence of an optional style; `scoreBox` is an opaque leaf
widget carried by its preferred width/height (its source file is not in the
snapshot, and the renderer only delegates to it). -/
inductive DocumentElement where
  | text (content : String) (has_style : Bool)
  | heading (level : Nat) (content : String)
  | sectionTitle (content : String) (underline : Bool)
  | link (key display : String) (focused : Bool)
  | separator
  | spacer (lines : Nat)
  | group (children : List DocumentElement) (has_style : Bool)
  | row (children : List DocumentElement) (gap : Nat) (align : RowAlignment)
  | table (t : TableWidget)
  | scoreBox (pref_width : Option Nat) (pref_height : Option Nat)
  | teamBoxscore (team_name : String) (forwards defense goalies : TableWidget)

instance : Inhabited DocumentElement := ⟨.separator⟩

/-- `TEAM_BOXSCORE_WIDTH` (src/src/tui/document/elements/render.rs). -/
def TEAM_BOXSCORE_WIDTH : Nat := 85

/-- `get_preferred_width` (src/src/tui/document/elements/render.rs). -/
def get_preferred_width : DocumentElement → Option Nat
  | .scoreBox pref_width _ => pref_width
  | .teamBoxscore _ _ _ _ => some TEAM_BOXSCORE_WIDTH
  | _ => none

/-- Modelled from the spec: the number of rows a team-boxscore section
occupies when drawn (header line, blank line, table rows, trailing blank
line), read off the y-accumulation in `render_team_boxscore`. -/
def sectionHeightOf (t : TableWidget) : Nat :=
  if t.row_count = 0 then 0 else t.pref_height.getD 0 + 3

mutual

/-- Modelled from the spec: `DocumentElement::height()` — "Each element
reports a preferred height (fixed for leaves, sum of children for
containers)"; the defining file src/tui/document/elements/mod.rs is not in
the snapshot. Leaf values follow the drawn extents of the embedded render
functions (level-1 headings and underlined section titles span two rows). -/
def DocumentElement.height : DocumentElement → Nat
  | .text content _ => (content.splitOn "\n").length
  | .heading level _ => if level = 1 then 2 else 1
  | .sectionTitle _ underline => if underline then 2 else 1
  | .link _ _ _ => 1
  | .separator => 1
  | .spacer lines => lines
  | .group children _ => heightSum children
  | .row children _ _ => heightMax children
  | .table t => t.pref_height.getD 0
  | .scoreBox _ pref_height => pref_height.getD 0
  | .teamBoxscore _ forwards defense goalies =>
      sectionHeightOf forwards + sectionHeightOf defense + sectionHeightOf goalies + 1

/-- Sum of child heights (vertical container). -/
def heightSum : List DocumentElement → Nat
  | [] => 0
  | c :: rest => c.height + heightSum rest

/-- Maximum of child heights (horizontal container). -/
def heightMax : List DocumentElement → Nat
  | [] => 0
  | c :: rest => max c.height (heightMax rest)

end

/-- `render_text` (src/src/tui/document/elements/render.rs): each line of the
content, truncated to the area's height, then each character truncated to the
area's width, is placed cell by cell. -/
def render_text (content : String) (area : Rect) : List DrawOp :=
  (((content.splitOn "\n").take area.height).enum).flatMap fun li =>
    ((li.2.toList.take area.width).enum).map fun xc =>
      DrawOp.setCell (area.x + xc.1) (area.y + li.1) xc.2

/-- `render_heading` (src/src/tui/document/elements/render.rs): heading text
truncated to the width, plus — for level 1 in an area taller than one row —
an underline of `═` sized to the text's character count. -/
def render_heading (level : Nat) (content : String) (area : Rect) : List DrawOp :=
  ((content.toList.take area.width).enum).map
    (fun xc => DrawOp.setCell (area.x + xc.1) area.y xc.2) ++
  (if level = 1 ∧ 1 < area.height then
    (List.range (min area.width content.length)).map fun x =>
      DrawOp.setCell (area.x + x) (area.y + 1) '═'
  else [])

/-- `render_section_title` (src/src/tui/document/elements/render.rs). -/
def render_section_title (content : String) (underline : Bool) (area : Rect) :
    List DrawOp :=
  [DrawOp.setString area.x area.y content] ++
  (if underline ∧ 1 < area.height then
    [DrawOp.setString area.x (area.y + 1) (repeatStr "═" content.length)]
  else [])

/-- `render_link` (src/src/tui/document/elements/render.rs): a focused link
draws a selector-glyph lead-in, an unfocused one two alignment spaces, then
the display text. -/
def render_link (bc : BoxChars) (display : String) (focused : Bool)
    (area : Rect) : List DrawOp :=
  let lead := if focused then bc.selector ++ " " else "  "
  [DrawOp.setString area.x area.y lead,
   DrawOp.setString (area.x + lead.length) area.y display]

/-- `render_separator` (src/src/tui/document/elements/render.rs). -/
def render_separator (bc : BoxChars) (area : Rect) : List DrawOp :=
  let sep_char := bc.horizontal.toList.headD '-'
  (List.range area.width).map fun x => DrawOp.setCell (area.x + x) area.y sep_char

/-- `render_section_header` (src/src/tui/document/elements/render.rs): a
section rule with an embedded title; the first section uses top corners,
later sections T-junctions. `x + width - 1` is `Nat` subtraction, matching
the `u16` expression for every `width ≥ 1` (the only widths that reach it). -/
def render_section_header (bc : BoxChars) (x y width : Nat) (title : String)
    (is_first : Bool) : List DrawOp :=
  let corners := if is_first then (bc.mixed_dh_top_left, bc.mixed_dh_top_right)
    else (bc.mixed_dh_left_t, bc.mixed_dh_right_t)
  let title_lead := corners.1 ++ repeatStr bc.double_horizontal 2 ++ bc.mixed_dh_right_t
  let title_tail := bc.mixed_dh_left_t
  let used := 4 + title.length + 2
  let remaining := width - used
  let title_with_space := " " ++ title ++ " "
  let tail_x := x + 4 + title_with_space.length
  [DrawOp.setString x y title_lead,
   DrawOp.setString (x + 4) y title_with_space,
   DrawOp.setString tail_x y title_tail,
   DrawOp.setString (tail_x + 1) y (repeatStr bc.double_horizontal (remaining - 1)),
   DrawOp.setString (x + width - 1) y corners.2]

/-- `render_bottom_border` (src/src/tui/document/elements/render.rs). -/
def render_bottom_border (bc : BoxChars) (x y width : Nat) : List DrawOp :=
  [DrawOp.setString x y bc.mixed_dh_bottom_left,
   DrawOp.setString (x + 1) y (repeatStr bc.double_horizontal (width - 2))] ++
  (if 1 < width then [DrawOp.setString (x + width - 1) y bc.mixed_dh_bottom_right]
   else [])

/-- The `render_empty_bordered_line` closure inside `render_team_boxscore`
(src/src/tui/document/elements/render.rs). -/
def render_empty_bordered_line (bc : BoxChars) (ax y width : Nat) : List DrawOp :=
  [DrawOp.setString ax y bc.vertical] ++
  (if 1 < width then [DrawOp.setString (ax + width - 1) y bc.vertical] else [])

/-- The per-section body drawn by `render_team_boxscore` after its header
(src/src/tui/document/elements/render.rs): blank bordered line, side borders
for every table row, the delegated table render, and a trailing blank
bordered line. `y` is the row just below the section header. -/
def sectionBodyOps (bc : BoxChars) (ax width inner_width y : Nat)
    (table : TableWidget) : List DrawOp :=
  let table_height := table.pref_height.getD 0
  render_empty_bordered_line bc ax y width ++
  ((List.range table_height).flatMap fun row =>
    [DrawOp.setString ax (y + 1 + row) bc.vertical] ++
    (if 1 < width then
      [DrawOp.setString (ax + width - 1) (y + 1 + row) bc.vertical] else [])) ++
  [DrawOp.renderTable (ax + 1) (y + 1) inner_width table_height] ++
  render_empty_bordered_line bc ax (y + 1 + table_height) width

/-- The section loop of `render_team_boxscore`
(src/src/tui/document/elements/render.rs): walks the
(name, table) section list with the running `y` and `is_first_section`
accumulators, skipping any section whose `row_count()` is zero (`continue`),
and returns the emitted operations together with the final `y`. -/
def teamBoxscoreSections (bc : BoxChars) (team_name : String)
    (ax width inner_width : Nat) :
    List (String × TableWidget) → Nat → Bool → List DrawOp × Nat
  | [], y, _ => ([], y)
  | (section_name, table) :: rest, y, is_first =>
    if table.row_count = 0 then
      teamBoxscoreSections bc team_name ax width inner_width rest y is_first
    else
      let title := team_name ++ " - " ++ section_name
      let table_height := table.pref_height.getD 0
      let ops := render_section_header bc ax y width title is_first ++
        sectionBodyOps bc ax width inner_width (y + 1) table
      let restResult :=
        teamBoxscoreSections bc team_name ax width inner_width rest
          (y + 3 + table_height) false
      (ops ++ restResult.1, restResult.2)

/-- `render_team_boxscore` (src/src/tui/document/elements/render.rs). -/
def render_team_boxscore (bc : BoxChars) (team_name : String)
    (forwards_table defense_table goalies_table : TableWidget) (area : Rect) :
    List DrawOp :=
  let width := min TEAM_BOXSCORE_WIDTH area.width
  let inner_width := width - 2
  let result := teamBoxscoreSections bc team_name area.x width inner_width
    [("Forwards", forwards_table), ("Defense", defense_table),
     ("Goalies", goalies_table)] area.y true
  result.1 ++ render_bottom_border bc area.x result.2 width

/-- The x-positions assigned by `render_row`'s child loop
(src/src/tui/document/elements/render.rs): children laid out left to right, each
advancing the running x by its width plus `gap_value`. -/
def rowWalk (ws : List Nat) (x y height gap_value : Nat) : List Rect :=
  match ws with
  | [] => []
  | w :: rest => ⟨x, y, w, height⟩ :: rowWalk rest (x + w + gap_value) y height gap_value

/-- The child areas computed by `render_row`
(src/src/tui/document/elements/render.rs): empty for no children or zero
width; when every child reports a preferred width, those widths are used with
the alignment-dependent gap (`Left`: the configured gap; `Spread`: the
remaining width divided by the number of gaps, never below the configured
gap); otherwise the available width is divided equally. -/
def rowChildRects (children : List DocumentElement) (gap : Nat)
    (align : RowAlignment) (area : Rect) : List Rect :=
  if children.isEmpty || area.width == 0 then []
  else if children.all (fun c => (get_preferred_width c).isSome) then
    let total_children_width := (children.filterMap get_preferred_width).sum
    let actual_gap :=
      match align with
      | .left => gap
      | .spread =>
        let num_gaps := children.length - 1
        if 0 < num_gaps then
          max ((area.width - total_children_width) / num_gaps) gap
        else 0
    rowWalk (children.map fun c => (get_preferred_width c).getD 0)
      area.x area.y area.height actual_gap
  else
    let num_children := children.length
    let total_gap := gap * (num_children - 1)
    let available_width := area.width - total_gap
    let child_width := available_width / num_children
    rowWalk (List.replicate num_children child_width) area.x area.y area.height gap

/-- The final value of `render_group`'s running `y_offset`
(src/src/tui/document/elements/render.rs), used to bound its style patch. -/
def groupYOffFinal : List DocumentElement → Nat → Nat → Nat
  | [], y_off, _ => y_off
  | c :: rest, y_off, area_height =>
    if area_height ≤ y_off then y_off
    else groupYOffFinal rest (y_off + c.height) area_height

/-- The style patch at the end of `render_group`
(src/src/tui/document/elements/render.rs): when the group has a style, every
cell in the rows `area.y ..< area.y + min area.height y_offset` is patched. -/
def groupStylePatch (has_style : Bool) (children : List DocumentElement)
    (area : Rect) : List DrawOp :=
  if has_style then
    let y_final := groupYOffFinal children 0 area.height
    (List.range (min area.height y_final)).flatMap fun dy =>
      (List.range area.width).map fun dx =>
        DrawOp.patchStyle (area.x + dx) (area.y + dy)
  else []

/-- The child placements computed by `render_group`'s loop
(src/src/tui/document/elements/render.rs): each child at the running sum of
the preceding children's heights, clipped to the remaining height, stopping
once the area's height is exhausted. -/
def groupPlacements : List DocumentElement → Nat → Rect → List (DocumentElement × Rect)
  | [], _, _ => []
  | c :: rest, y_off, area =>
    if area.height ≤ y_off then []
    else
      (c, ⟨area.x, area.y + y_off, area.width, min c.height (area.height - y_off)⟩) ::
        groupPlacements rest (y_off + c.height) area

/-- Sum of the preferred heights of the first `i` children — the running
y-offset at which `render_group` places child `i`. -/
def heightsBefore (children : List DocumentElement) (i : Nat) : Nat :=
  ((children.take i).map DocumentElement.height).sum

/-- The team-boxscore drawing described by the specification sentence under
verification: a bordered section with embedded title `"{team} - {role}"` for
exactly the roles (Forwards, Defense, Goalies, in that order) whose table has
a nonzero row count — zero-row sections contribute no operations at all —
followed by a single bottom border. Stated separately from
`render_team_boxscore` so the two can be proved equal. -/
def teamBoxscoreClaimOps (bc : BoxChars) (team_name : String)
    (forwards_table defense_table goalies_table : TableWidget) (area : Rect) :
    List DrawOp :=
  let width := min TEAM_BOXSCORE_WIDTH area.width
  let inner_width := width - 2
  let drawn := [("Forwards", forwards_table), ("Defense", defense_table),
    ("Goalies", goalies_table)].filter fun s => s.2.row_count != 0
  let step := fun (acc : List DrawOp × Nat × Bool) (s : String × TableWidget) =>
    (acc.1 ++
       render_section_header bc area.x acc.2.1 width (team_name ++ " - " ++ s.1) acc.2.2 ++
       sectionBodyOps bc area.x width inner_width (acc.2.1 + 1) s.2,
     acc.2.1 + 3 + s.2.pref_height.getD 0, false)
  let r := drawn.foldl step ([], area.y, true)
  r.1 ++ render_bottom_border bc area.x r.2.1 width

mutual

/-- `DocumentElement::render` — dispatch to the per-variant render functions
of src/src/tui/document/elements/render.rs. The zero-area guard is modelled
from the spec ("zero-width or zero-height target areas render nothing"); the
dispatching file src/tui/document/elements/mod.rs is not in the snapshot.
`spacer` draws nothing (blank lines), and `table`/`scoreBox` delegate to
their widgets. -/
def renderElement (bc : BoxChars) (el : DocumentElement) (area : Rect) :
    List DrawOp :=
  if area.width = 0 ∨ area.height = 0 then []
  else
    match el with
    | .text content _ => render_text content area
    | .heading level content => render_heading level content area
    | .sectionTitle content underline => render_section_title content underline area
    | .link _ display focused => render_link bc display focused area
    | .separator => render_separator bc area
    | .spacer _ => []
    | .table _ => [DrawOp.renderTable area.x area.y area.width area.height]
    | .scoreBox _ _ => [DrawOp.renderWidget area.x area.y area.width area.height]
    | .teamBoxscore team_name forwards defense goalies =>
        render_team_boxscore bc team_name forwards defense goalies area
    | .group children has_style =>
        render_group_children bc children 0 area ++ groupStylePatch has_style children area
    | .row children gap align =>
        render_row_children bc children (rowChildRects children gap align area)

/-- `render_group`'s child loop (src/src/tui/document/elements/render.rs). -/
def render_group_children (bc : BoxChars) (children : List DocumentElement)
    (y_off : Nat) (area : Rect) : List DrawOp :=
  match children with
  | [] => []
  | c :: rest =>
    if area.height ≤ y_off then []
    else
      renderElement bc c ⟨area.x, area.y + y_off, area.width, min c.height (area.height - y_off)⟩ ++
        render_group_children bc rest (y_off + c.height) area

/-- `render_row`'s child loop (src/src/tui/document/elements/render.rs):
each child rendered into its computed area. -/
def render_row_children (bc : BoxChars) (children : List DocumentElement)
    (rects : List Rect) : List DrawOp :=
  match children, rects with
  | c :: cs, r :: rs => renderElement bc c r ++ render_row_children bc cs rs
  | _, _ => []

end

/- ## Document view (modelled from the spec) -/

/-- Modelled from the spec: the `DocumentView` windowing renderer — built
element list, viewport height, verbatim-stored scroll offset, optional focus
index (src/tui/document/view.rs is not in the snapshot; its construction
`DocumentView::new(doc, area.height)` followed by `set_scroll_offset` appears
in src/src/tui/components/boxscore_document.rs). -/
structure DocumentView where
  elements : List DocumentElement
  viewport_height : Nat
  scroll_offset : Nat
  focus_index : Option Nat

/-- Modelled from the spec: `DocumentView::new` — fresh view with scroll 0. -/
def DocumentView.new (elements : List DocumentElement) (viewport_height : Nat) :
    DocumentView :=
  ⟨elements, viewport_height, 0, none⟩

/-- Modelled from the spec: total content height = sum of preferred heights. -/
def DocumentView.total_height (v : DocumentView) : Nat :=
  heightSum v.elements

/-- Modelled from the spec: `set_scroll_offset(n)` stores `n` verbatim. -/
def DocumentView.set_scroll_offset (v : DocumentView) (n : Nat) : DocumentView :=
  { v with scroll_offset := n }

/-- Modelled from the spec: the scroll offset actually used at render time,
clamped to `[0, max(0, total_height - viewport_height)]` (in `Nat`,
`max 0 (H - V)` is `H - V` with truncated subtraction). -/
def DocumentView.clamped_scroll (v : DocumentView) : Nat :=
  min v.scroll_offset (v.total_height - v.viewport_height)

/-- One element drawn by the document view: its index, the viewport row where
its drawing starts, the number of its top rows cropped away above the
viewport, and the number of its rows drawn. -/
structure ElementPlacement where
  index : Nat
  screen_y : Nat
  crop_top : Nat
  drawn_height : Nat
deriving DecidableEq, Repr

/-- Modelled from the spec: the render walk of `DocumentView::render` —
accumulate a running y-offset over the elements; elements entirely above the
scroll offset are skipped; a partially visible element has its top rows
cropped; drawing stops once the viewport's bottom edge is reached. -/
def viewWalk (heights : List Nat) (i y scroll viewport : Nat) :
    List ElementPlacement :=
  match heights with
  | [] => []
  | h :: rest =>
    if scroll + viewport ≤ y then []
    else if y + h ≤ scroll then viewWalk rest (i + 1) (y + h) scroll viewport
    else
      ⟨i, max y scroll - scroll, scroll - y, min (y + h) (scroll + viewport) - max y scroll⟩ ::
        viewWalk rest (i + 1) (y + h) scroll viewport

/-- Modelled from the spec: the element placements drawn by
`DocumentView::render`, with the stored scroll offset clamped at render time. -/
def DocumentView.renderPlacements (v : DocumentView) : List ElementPlacement :=
  viewWalk (v.elements.map DocumentElement.height) 0 0 v.clamped_scroll v.viewport_height

/-- Modelled from the spec: the draw operations of `DocumentView::render`
into a target area — every placed element rendered at its viewport row with
its visible height. -/
def DocumentView.renderOps (v : DocumentView) (bc : BoxChars) (area : Rect) :
    List DrawOp :=
  v.renderPlacements.flatMap fun p =>
    renderElement bc (v.elements.getD p.index .separator)
      ⟨area.x, area.y + p.screen_y, area.width, p.drawn_height⟩

/-- The document render path of `BoxscoreDocumentWidget::render`
(src/src/tui/components/boxscore_document.rs): a fresh `DocumentView` over the
built elements seeded with the entry's scroll offset, rendered into the area
with the area's height as the viewport height. -/
def documentRenderOps (bc : BoxChars) (elements : List DocumentElement)
    (scroll : Nat) (area : Rect) : List DrawOp :=
  ((DocumentView.new elements area.height).set_scroll_offset scroll).renderOps bc area

/- ## Theorems -/

/-- C9: for every i32 score `s`, `BigScore::score_digits(s)` is the displayed
digit list clamped to 0..=99 — `[0]` for negative scores, the single digit for
`0 ≤ s ≤ 9`, the two decimal digits for `10 ≤ s ≤ 99`, `[9, 9]` for
`s ≥ 100` — and every returned digit is between 0 and 9, so rendering never
indexes out of the ten-entry big-digit font. -/
theorem C9_score_digits_clamped (s : Int) :
    (s < 0 → score_digits s = [0]) ∧
    (0 ≤ s → s ≤ 9 → score_digits s = [s.toNat]) ∧
    (10 ≤ s → s ≤ 99 → score_digits s = [(s / 10).toNat, (s % 10).toNat]) ∧
    (100 ≤ s → score_digits s = [9, 9]) ∧
    (∀ d ∈ score_digits s, d ≤ 9 ∧ d < BIG_DIGITS.length) := by
  have hd9 : ∀ d ∈ score_digits s, d ≤ 9 := by
    unfold score_digits
    split_ifs with h1 h2 h3
    · simp
    · simp
      omega
    · intro d hd
      simp only [List.mem_cons, List.mem_singleton, List.not_mem_nil, or_false] at hd
      rcases hd with h | h <;> subst h <;> omega
    · simp
  have hlen : BIG_DIGITS.length = 10 := rfl
  refine ⟨?_, ?_, ?_, ?_, fun d hd => ⟨hd9 d hd, by have := hd9 d hd; omega⟩⟩
  all_goals
    unfold score_digits
    intros
    split_ifs <;> first | rfl | omega

/-- Witness for C9 at the concrete score 87. -/
theorem C9_score_digits_clamped_witness :
    score_digits 87 = [((87 : Int) / 10).toNat, ((87 : Int) % 10).toNat] ∧
    ∀ d ∈ score_digits 87, d ≤ 9 ∧ d < BIG_DIGITS.length :=
  ⟨(C9_score_digits_clamped 87).2.2.1 (by decide) (by decide),
   (C9_score_digits_clamped 87).2.2.2.2⟩

/-- C10: `BigScore::preferred_width` (= `total_width`) is invariant under
swapping the away and home scores with names, status and venue fixed, because
`balanced_name_boxes` adds the digit-width imbalance to the name box on the
side of the narrower score. -/
theorem C10_preferred_width_swap_symmetric {St : Type} (s : BigScore St) :
    s.swap_scores.preferred_width = s.preferred_width ∧
    s.swap_scores.total_width = s.total_width := by
  have h : s.swap_scores.total_width = s.total_width := by
    simp only [BigScore.total_width, BigScore.balanced_name_boxes, BigScore.swap_scores]
    split_ifs <;> omega
  exact ⟨by simp only [BigScore.preferred_width, h], h⟩

/-- C3: for a single-entry document stack, the breadcrumb text is the active
tab label, the separator glyph, then the entry's per-variant label:
team abbreviation for `TeamDetail`, `AWAY:score-HOME:score` for `Boxscore`,
`#number LastName` (or just `LastName` without a sweater number) for
`PlayerDetail`. -/
theorem C3_breadcrumb_single_entry (tab : Tab) (nav : NavState)
    (game_id player_id : Int) (game_date : String) :
    breadcrumb_text BoxChars.unicode tab [⟨.TeamDetail "TOR", nav⟩] =
      tab.name ++ " ▶ " ++ "TOR" ∧
    breadcrumb_text BoxChars.unicode tab
        [⟨.Boxscore game_id "TOR" "BOS" 3 2 game_date, nav⟩] =
      tab.name ++ " ▶ " ++ "TOR:3-BOS:2" ∧
    breadcrumb_text BoxChars.unicode tab
        [⟨.PlayerDetail player_id (some 87) "Crosby", nav⟩] =
      tab.name ++ " ▶ " ++ "#87 Crosby" ∧
    breadcrumb_text BoxChars.unicode tab [⟨.PlayerDetail player_id none "Crosby", nav⟩] =
      tab.name ++ " ▶ " ++ "Crosby" := by
  refine ⟨?_, ?_, ?_, ?_⟩ <;> cases tab <;> rfl

/-- C2 helper: mutating the top entry of a stack written as `s ++ [e]` leaves
the prefix `s` untouched. -/
theorem modifyTopNav_append (f : NavState → NavState)
    (s : List DocumentStackEntry) (e : DocumentStackEntry) :
    modifyTopNav f (s ++ [e]) = s ++ [⟨e.document, f e.nav⟩] := by
  induction s with
  | nil => rfl
  | cons a t ih =>
    cases t with
    | nil => simp [modifyTopNav]
    | cons b t' => simpa [modifyTopNav] using ih

/-- C2 helper: any mutation sequence on a stack of shape `s ++ [e]` keeps the
shape `s ++ [e']`. -/
theorem applyTopMutations_append (ms : List (NavState → NavState))
    (s : List DocumentStackEntry) (e : DocumentStackEntry) :
    ∃ e', applyTopMutations ms (s ++ [e]) = s ++ [e'] := by
  induction ms generalizing e with
  | nil => exact ⟨e, rfl⟩
  | cons f fs ih =>
    simp only [applyTopMutations, List.foldl_cons] at *
    rw [modifyTopNav_append]
    exact ih _

/-- C2: `push(doc, initial focus)` appends a fresh entry with scroll offset
zero, and after any sequence of focus/scroll mutations of the new top entry,
`pop()` restores the stack — in particular the entry beneath — exactly as it
was saved before the push. -/
theorem C2_push_pop_roundtrip (stack : List DocumentStackEntry)
    (doc : StackedDocument) (initial_focus : Option Nat)
    (ms : List (NavState → NavState)) :
    popDocument (applyTopMutations ms (pushDocument stack doc initial_focus)) = stack ∧
    (pushDocument stack doc initial_focus).getLast? =
      some ⟨doc, ⟨initial_focus, 0⟩⟩ := by
  constructor
  · obtain ⟨e', he⟩ :=
      applyTopMutations_append ms stack ⟨doc, ⟨initial_focus, 0⟩⟩
    show popDocument (applyTopMutations ms (stack ++ [⟨doc, ⟨initial_focus, 0⟩⟩])) = stack
    rw [he]
    simp [popDocument]
  · simp [pushDocument]

/-- C4 helper: appending a fresh binding for an absent path makes it found. -/
theorem storeLookup_append_of_none {σ : Type} {s : List (String × σ)}
    {p : String} (h : storeLookup s p = none) (v : σ) :
    storeLookup (s ++ [(p, v)]) p = some v := by
  induction s with
  | nil => simp [storeLookup]
  | cons a t ih =>
    obtain ⟨k, u⟩ := a
    by_cases hk : k = p
    · simp [storeLookup, hk] at h
    · simp only [storeLookup, hk, if_false, List.cons_append] at h ⊢
      exact ih h

/-- C4 helper: after `get_or_init`, the path's persisted state is exactly the
returned value. -/
theorem getOrInit_lookup {σ : Type} (s : List (String × σ)) (p : String) (i : σ) :
    storeLookup (getOrInit s p i).2 p = some (getOrInit s p i).1 := by
  cases h : storeLookup s p with
  | some v => simp [getOrInit, h]
  | none => simp [getOrInit, h, storeLookup_append_of_none h]

/-- C4 helper: an in-place mutation at a path rewrites exactly that path's
persisted state. -/
theorem storeLookup_setState_eq {σ : Type} (s : List (String × σ)) (p : String)
    (w : σ) :
    storeLookup (setState s p w) p = (storeLookup s p).map fun _ => w := by
  induction s with
  | nil => rfl
  | cons a t ih =>
    obtain ⟨k, u⟩ := a
    by_cases hk : k = p
    · subst hk
      simp [storeLookup, setState, ih]
    · simp [storeLookup, setState, hk, ih]

/-- C4 helper: an in-place mutation at path `p` leaves every other path's
persisted state untouched. -/
theorem storeLookup_setState_ne {σ : Type} (s : List (String × σ)) {p q : String}
    (w : σ) (h : p ≠ q) :
    storeLookup (setState s p w) q = storeLookup s q := by
  induction s with
  | nil => rfl
  | cons a t ih =>
    obtain ⟨k, u⟩ := a
    by_cases hk : k = p
    · subst hk
      simp [storeLookup, setState, h, ih]
    · simp [storeLookup, setState, hk, ih]

/-- C4: the component state store persists one state per path — the first
call for an absent path stores the props-derived initial state; a second
`get_or_init` with the same path returns the identical persisted value and
leaves the store untouched; a mutation made through the returned reference is
visible to subsequent calls; and mutating one path never changes the state
persisted at a distinct path. -/
theorem C4_state_store {σ : Type} (store : List (String × σ)) (p q : String)
    (init init2 init3 w : σ) (hpq : p ≠ q) :
    (storeLookup store p = none → (getOrInit store p init).1 = init) ∧
    (getOrInit (getOrInit store p init).2 p init2).1 = (getOrInit store p init).1 ∧
    (getOrInit (getOrInit store p init).2 p init2).2 = (getOrInit store p init).2 ∧
    (getOrInit (setState (getOrInit store p init).2 p w) p init3).1 = w ∧
    storeLookup (setState (getOrInit store p init).2 p w) q =
      storeLookup (getOrInit store p init).2 q := by
  refine ⟨fun h => by simp [getOrInit, h], ?_, ?_, ?_,
    storeLookup_setState_ne _ w hpq⟩
  all_goals
    have hl := getOrInit_lookup store p init
    generalize hs : getOrInit store p init = r at hl ⊢
    obtain ⟨v1, s1⟩ := r
  · simp [getOrInit, hl]
  · simp [getOrInit, hl]
  · have h2 : storeLookup (setState s1 p w) p = some w := by
      rw [storeLookup_setState_eq, hl]
      rfl
    simp [getOrInit, h2]

/-- Witness for C4 on a concrete `Nat`-state store with paths "a" and "b". -/
theorem C4_state_store_witness :
    (getOrInit (getOrInit ([] : List (String × Nat)) "a" 5).2 "a" 9).1 =
      (getOrInit ([] : List (String × Nat)) "a" 5).1 ∧
    (getOrInit (setState (getOrInit ([] : List (String × Nat)) "a" 5).2 "a" 7) "a" 9).1 = 7 ∧
    storeLookup (setState (getOrInit ([] : List (String × Nat)) "a" 5).2 "a" 7) "b" =
      storeLookup (getOrInit ([] : List (String × Nat)) "a" 5).2 "b" := by
  have h := C4_state_store ([] : List (String × Nat)) "a" "b" 5 9 9 7 (by decide)
  exact ⟨h.2.1, h.2.2.2.1, h.2.2.2.2⟩

/-- Helper: a `flatMap` whose function returns `[]` on every member is `[]`. -/
theorem flatMap_eq_nil_of {α β : Type} {l : List α} {f : α → List β}
    (h : ∀ x ∈ l, f x = []) : l.flatMap f = [] := by
  induction l with
  | nil => rfl
  | cons a t ih =>
    simp only [List.flatMap_cons]
    rw [h a (List.mem_cons_self a t), ih fun x hx => h x (List.mem_cons_of_mem a hx)]
    rfl

/-- C1 helper: with scroll offset 0, no placed element is cropped at the top. -/
theorem viewWalk_scroll_zero_crop (heights : List Nat) :
    ∀ (i y viewport : Nat), ∀ p ∈ viewWalk heights i y 0 viewport, p.crop_top = 0 := by
  induction heights with
  | nil =>
    intro i y viewport p hp
    simp [viewWalk] at hp
  | cons h rest ih =>
    intro i y viewport p hp
    simp only [viewWalk] at hp
    by_cases h1 : 0 + viewport ≤ y
    · rw [if_pos h1] at hp
      simp at hp
    · rw [if_neg h1] at hp
      by_cases h2 : y + h ≤ 0
      · rw [if_pos h2] at hp
        exact ih _ _ _ p hp
      · rw [if_neg h2] at hp
        rcases List.mem_cons.mp hp with rfl | hmem
        · simp
        · exact ih _ _ _ p hmem

/-- C6 helper: no placed element is drawn taller than the viewport. -/
theorem viewWalk_drawn_le (heights : List Nat) :
    ∀ (i y scroll viewport : Nat), ∀ p ∈ viewWalk heights i y scroll viewport,
      p.drawn_height ≤ viewport := by
  induction heights with
  | nil =>
    intro i y scroll viewport p hp
    simp [viewWalk] at hp
  | cons h rest ih =>
    intro i y scroll viewport p hp
    simp only [viewWalk] at hp
    by_cases h1 : scroll + viewport ≤ y
    · rw [if_pos h1] at hp
      simp at hp
    · rw [if_neg h1] at hp
      by_cases h2 : y + h ≤ scroll
      · rw [if_pos h2] at hp
        exact ih _ _ _ _ p hp
      · rw [if_neg h2] at hp
        rcases List.mem_cons.mp hp with rfl | hmem
        · simp only
          omega
        · exact ih _ _ _ _ p hmem

/-- C1: with viewport height `V ≤ H` (total content height), setting any
scroll offset `n ≥ H − V` renders the same placements — hence the same draw
operations — as offset exactly `H − V`; offset `0` shows the top of the
content (no element cropped above, clamped scroll zero); and the stored
offset is clamped at render time to `[0, H − V]`. -/
theorem C1_scroll_offset_clamping (v : DocumentView) (n : Nat)
    (hV : v.viewport_height ≤ v.total_height)
    (hn : v.total_height - v.viewport_height ≤ n) :
    (v.set_scroll_offset n).renderPlacements =
      (v.set_scroll_offset (v.total_height - v.viewport_height)).renderPlacements ∧
    (∀ (bc : BoxChars) (area : Rect),
      (v.set_scroll_offset n).renderOps bc area =
        (v.set_scroll_offset (v.total_height - v.viewport_height)).renderOps bc area) ∧
    (∀ p ∈ (v.set_scroll_offset 0).renderPlacements, p.crop_top = 0) ∧
    (v.set_scroll_offset 0).clamped_scroll = 0 ∧
    (∀ m, (v.set_scroll_offset m).clamped_scroll ≤
      v.total_height - v.viewport_height) := by
  have hmin : min n (v.total_height - v.viewport_height) =
      min (v.total_height - v.viewport_height) (v.total_height - v.viewport_height) := by
    omega
  have hp : (v.set_scroll_offset n).renderPlacements =
      (v.set_scroll_offset (v.total_height - v.viewport_height)).renderPlacements := by
    show viewWalk (v.elements.map DocumentElement.height) 0 0
        (min n (v.total_height - v.viewport_height)) v.viewport_height =
      viewWalk (v.elements.map DocumentElement.height) 0 0
        (min (v.total_height - v.viewport_height) (v.total_height - v.viewport_height))
        v.viewport_height
    rw [hmin]
  refine ⟨hp, ?_, ?_, ?_, ?_⟩
  · intro bc area
    show ((v.set_scroll_offset n).renderPlacements).flatMap _ =
      ((v.set_scroll_offset (v.total_height - v.viewport_height)).renderPlacements).flatMap _
    rw [hp]
    rfl
  · intro p hp0
    have hp0' : p ∈ viewWalk (v.elements.map DocumentElement.height) 0 0
        (min 0 (v.total_height - v.viewport_height)) v.viewport_height := hp0
    rw [Nat.zero_min] at hp0'
    exact viewWalk_scroll_zero_crop _ _ _ _ p hp0'
  · show min 0 (v.total_height - v.viewport_height) = 0
    exact Nat.zero_min _
  · intro m
    exact Nat.min_le_right _ _

/-- Witness for C1 on a two-element document (heights 1 and 3, total 4) in a
viewport of height 2, with the oversized offset 7. -/
theorem C1_scroll_offset_clamping_witness :
    ((DocumentView.new [.separator, .spacer 3] 2).set_scroll_offset 7).renderPlacements =
      ((DocumentView.new [.separator, .spacer 3] 2).set_scroll_offset 2).renderPlacements ∧
    ((DocumentView.new [.separator, .spacer 3] 2).set_scroll_offset 0).clamped_scroll = 0 := by
  have h := C1_scroll_offset_clamping (DocumentView.new [.separator, .spacer 3] 2) 7
    (by decide) (by decide)
  exact ⟨h.1, h.2.2.2.1⟩

/-- C6: rendering any document element — and the whole document render path —
into a target area of zero width or zero height emits no draw operations. -/
theorem C6_zero_area_renders_nothing (bc : BoxChars) (el : DocumentElement)
    (elements : List DocumentElement) (scroll : Nat) (area : Rect)
    (h : area.width = 0 ∨ area.height = 0) :
    renderElement bc el area = [] ∧
    documentRenderOps bc elements scroll area = [] := by
  have hre : ∀ (e : DocumentElement) (a : Rect),
      a.width = 0 ∨ a.height = 0 → renderElement bc e a = [] := by
    intro e a ha
    rw [renderElement.eq_def]
    rcases ha with ha | ha <;> simp [ha]
  refine ⟨hre el area h, ?_⟩
  apply flatMap_eq_nil_of
  intro p hp
  apply hre
  rcases h with hw | hh
  · exact Or.inl hw
  · right
    show p.drawn_height = 0
    have hmem : p ∈ viewWalk (elements.map DocumentElement.height) 0 0
        (min scroll (heightSum elements - area.height)) area.height := hp
    have := viewWalk_drawn_le _ _ _ _ _ p hmem
    omega

/-- Witness for C6 on a separator element and a one-element document in a
zero-width area. -/
theorem C6_zero_area_renders_nothing_witness :
    renderElement BoxChars.unicode .separator ⟨0, 0, 0, 5⟩ = [] ∧
    documentRenderOps BoxChars.unicode [.separator] 3 ⟨0, 0, 0, 5⟩ = [] :=
  C6_zero_area_renders_nothing BoxChars.unicode .separator [.separator] 3
    ⟨0, 0, 0, 5⟩ (Or.inl rfl)

/-- C7 helper: taking no children accumulates no height. -/
theorem heightsBefore_zero (l : List DocumentElement) : heightsBefore l 0 = 0 := rfl

/-- C7 helper: the running height past `j + 1` children of a cons. -/
theorem heightsBefore_cons_succ (c : DocumentElement) (rest : List DocumentElement)
    (j : Nat) :
    heightsBefore (c :: rest) (j + 1) = c.height + heightsBefore rest j := by
  simp [heightsBefore]

/-- C7 helper: full characterization of `render_group`'s child placements,
generalized over the starting y-offset: child `i` is placed iff the running
height before it still fits, at the running sum of the preceding heights,
clipped to the remaining height. -/
theorem groupPlacements_spec (area : Rect) :
    ∀ (children : List DocumentElement) (y_off i : Nat),
    (i < (groupPlacements children y_off area).length ↔
      i < children.length ∧ y_off + heightsBefore children i < area.height) ∧
    (i < (groupPlacements children y_off area).length →
      (groupPlacements children y_off area).getD i default =
        (children.getD i default,
         ⟨area.x, area.y + (y_off + heightsBefore children i), area.width,
          min (children.getD i default).height
            (area.height - (y_off + heightsBefore children i))⟩)) := by
  intro children
  induction children with
  | nil =>
    intro y_off i
    simp [groupPlacements, heightsBefore]
  | cons c rest ih =>
    intro y_off i
    by_cases hle : area.height ≤ y_off
    · constructor
      · simp only [groupPlacements, if_pos hle, List.length_nil]
        constructor
        · omega
        · rintro ⟨h1, h2⟩
          omega
      · simp [groupPlacements, hle]
    · cases i with
      | zero =>
        constructor
        · simp only [groupPlacements, if_neg hle, List.length_cons, heightsBefore_zero]
          omega
        · intro _
          simp [groupPlacements, hle, heightsBefore_zero]
      | succ j =>
        have ihj := ih (y_off + c.height) j
        constructor
        · simp only [groupPlacements, if_neg hle, List.length_cons,
            heightsBefore_cons_succ]
          rw [Nat.add_lt_add_iff_right, Nat.add_lt_add_iff_right]
          constructor
          · intro hj
            obtain ⟨h1, h2⟩ := ihj.1.mp hj
            exact ⟨h1, by omega⟩
          · rintro ⟨h1, h2⟩
            exact ihj.1.mpr ⟨h1, by omega⟩
        · intro hj
          simp only [groupPlacements, if_neg hle, List.length_cons] at hj
          have hj' : j < (groupPlacements rest (y_off + c.height) area).length := by
            omega
          simp only [groupPlacements, if_neg hle, List.getD_cons_succ]
          rw [ihj.2 hj']
          simp [heightsBefore_cons_succ, Nat.add_assoc]

/-- C7 helper: `render_group`'s child loop draws exactly its computed
placements, each child rendered into its placement area. -/
theorem render_group_children_eq_flatMap (bc : BoxChars)
    (children : List DocumentElement) :
    ∀ (y_off : Nat) (area : Rect),
    render_group_children bc children y_off area =
      (groupPlacements children y_off area).flatMap fun p =>
        renderElement bc p.1 p.2 := by
  induction children with
  | nil =>
    intro y_off area
    rfl
  | cons c rest ih =>
    intro y_off area
    by_cases hle : area.height ≤ y_off <;>
      simp [render_group_children, groupPlacements, hle, ih]

/-- C7: `render_group` stacks children vertically — the drawn operations are
exactly those of its placements; child `i` is placed iff the running sum of
the preceding children's preferred heights is below the area's height (so a
child starting at or past the bottom edge is not rendered at all, without
error); and a placed child sits at the running-sum offset, clipped to the
remaining height. -/
theorem C7_group_vertical_stacking (bc : BoxChars)
    (children : List DocumentElement) (area : Rect) :
    (render_group_children bc children 0 area =
      (groupPlacements children 0 area).flatMap fun p =>
        renderElement bc p.1 p.2) ∧
    (∀ i, i < (groupPlacements children 0 area).length ↔
      i < children.length ∧ heightsBefore children i < area.height) ∧
    (∀ i, i < (groupPlacements children 0 area).length →
      (groupPlacements children 0 area).getD i default =
        (children.getD i default,
         ⟨area.x, area.y + heightsBefore children i, area.width,
          min (children.getD i default).height
            (area.height - heightsBefore children i)⟩)) := by
  refine ⟨render_group_children_eq_flatMap bc children 0 area, ?_, ?_⟩
  · intro i
    have h := (groupPlacements_spec area children 0 i).1
    simpa using h
  · intro i hi
    have h := (groupPlacements_spec area children 0 i).2 hi
    simpa using h

/-- Witness for C7: the second child of a group (heights 1 and 3) in an area
of height 2 is placed at offset 1 and clipped to one row. -/
theorem C7_group_vertical_stacking_witness :
    (groupPlacements [DocumentElement.separator, .spacer 3] 0 ⟨0, 0, 4, 2⟩).getD 1 default =
      (DocumentElement.spacer 3, ⟨0, 1, 4, 1⟩) :=
  (C7_group_vertical_stacking BoxChars.unicode [.separator, .spacer 3]
    ⟨0, 0, 4, 2⟩).2.2 1 (by decide)

/-- C5 helper: the row walk produces one area per width. -/
theorem rowWalk_length (ws : List Nat) :
    ∀ (x y h g : Nat), (rowWalk ws x y h g).length = ws.length := by
  induction ws with
  | nil => intro x y h g; rfl
  | cons w rest ih =>
    intro x y h g
    simp [rowWalk, ih]

/-- C5 helper: adjacent children in the row walk are separated by exactly the
preceding child's width plus the gap value. -/
theorem rowWalk_getD_x (ws : List Nat) :
    ∀ (x y h g i : Nat), i + 1 < ws.length →
    ((rowWalk ws x y h g).getD (i + 1) default).x =
      ((rowWalk ws x y h g).getD i default).x + ws.getD i 0 + g := by
  induction ws with
  | nil =>
    intro x y h g i hi
    simp at hi
  | cons w rest ih =>
    intro x y h g i hi
    cases i with
    | zero =>
      cases rest with
      | nil => simp at hi
      | cons w2 r2 => simp [rowWalk]
    | succ j =>
      have hj : j + 1 < rest.length := by simpa using hi
      simpa [rowWalk, List.getD_cons_succ] using ih (x + w + g) y h g j hj

/-- C5: in a `Row` whose `n ≥ 2` children all report preferred widths summing
to `W`, rendered into an area of width `A ≥ W` with configured minimum gap
`g`, the gap placed between each pair of adjacent children is exactly
`max ((A − W) / (n − 1)) g` (integer division) under `Spread` alignment, and
exactly `g` under `Left` alignment. -/
theorem C5_row_gap (children : List DocumentElement) (gap : Nat) (area : Rect)
    (hall : children.all (fun c => (get_preferred_width c).isSome) = true)
    (hn : 2 ≤ children.length)
    (hW : (children.filterMap get_preferred_width).sum ≤ area.width) :
    (∀ i, i + 1 < (rowChildRects children gap .spread area).length →
      ((rowChildRects children gap .spread area).getD (i + 1) default).x =
        ((rowChildRects children gap .spread area).getD i default).x +
          (children.map fun c => (get_preferred_width c).getD 0).getD i 0 +
          max ((area.width - (children.filterMap get_preferred_width).sum) /
            (children.length - 1)) gap) ∧
    (∀ i, i + 1 < (rowChildRects children gap .left area).length →
      ((rowChildRects children gap .left area).getD (i + 1) default).x =
        ((rowChildRects children gap .left area).getD i default).x +
          (children.map fun c => (get_preferred_width c).getD 0).getD i 0 + gap) := by
  have hne : children.isEmpty = false := by
    cases children with
    | nil => simp at hn
    | cons a t => rfl
  by_cases hw : area.width = 0
  · constructor <;>
      · intro i hi
        simp [rowChildRects, hw] at hi
  · have hwb : (area.width == 0) = false := by
      simpa using hw
    have hng : 0 < children.length - 1 := by omega
    constructor
    · intro i hi
      have hr : rowChildRects children gap .spread area =
          rowWalk (children.map fun c => (get_preferred_width c).getD 0)
            area.x area.y area.height
            (max ((area.width - (children.filterMap get_preferred_width).sum) /
              (children.length - 1)) gap) := by
        simp [rowChildRects, hne, hwb, hall, hng]
      rw [hr] at hi ⊢
      exact rowWalk_getD_x _ _ _ _ _ i (by rwa [rowWalk_length] at hi)
    · intro i hi
      have hr : rowChildRects children gap .left area =
          rowWalk (children.map fun c => (get_preferred_width c).getD 0)
            area.x area.y area.height gap := by
        simp [rowChildRects, hne, hwb, hall]
      rw [hr] at hi ⊢
      exact rowWalk_getD_x _ _ _ _ _ i (by rwa [rowWalk_length] at hi)

/-- Witness for C5 on two score boxes of widths 10 and 20 spread across a
width-50 area with minimum gap 1: the second child starts 10 + 20 columns
after the first. -/
theorem C5_row_gap_witness :
    ((rowChildRects [DocumentElement.scoreBox (some 10) (some 8),
        .scoreBox (some 20) (some 8)] 1 .spread ⟨0, 0, 50, 5⟩).getD 1 default).x =
      ((rowChildRects [DocumentElement.scoreBox (some 10) (some 8),
        .scoreBox (some 20) (some 8)] 1 .spread ⟨0, 0, 50, 5⟩).getD 0 default).x +
        10 + 20 := by
  have h := (C5_row_gap
    [DocumentElement.scoreBox (some 10) (some 8), .scoreBox (some 20) (some 8)]
    1 ⟨0, 0, 50, 5⟩ (by decide) (by decide) (by decide)).1 0 (by decide)
  simpa using h

/-- C8: `render_team_boxscore` draws a bordered section with embedded
`"{team name} - {role}"` title for exactly the roles Forwards, Defense,
Goalies — in that order — whose table has a nonzero row count, omits zero-row
sections entirely, and follows the drawn sections with a single bottom
border: its draw operations equal the claim-side description
`teamBoxscoreClaimOps`. -/
theorem C8_team_boxscore_sections (bc : BoxChars) (team_name : String)
    (forwards_table defense_table goalies_table : TableWidget) (area : Rect) :
    render_team_boxscore bc team_name forwards_table defense_table goalies_table area =
      teamBoxscoreClaimOps bc team_name forwards_table defense_table goalies_table area := by
  by_cases hf : forwards_table.row_count = 0 <;>
    by_cases hd : defense_table.row_count = 0 <;>
      by_cases hg : goalies_table.row_count = 0 <;>
        simp [render_team_boxscore, teamBoxscoreClaimOps, teamBoxscoreSections,
          hf, hd, hg, List.filter_cons, List.append_assoc]

end NHL
